import Mathlib

/-!
Verification development for the bulebule micromouse perception and motion
core (detection.c and move.c).

Modelling conventions:

* C floating point values are modelled by the type FV: an exact rational
  together with the IEEE special values plus-infinity, minus-infinity and
  NaN.  Rounding is ignored (finite arithmetic is exact rational
  arithmetic), but the IEEE special-value rules are kept: NaN propagates
  through arithmetic, every ordered comparison involving NaN is false,
  log of a negative number is NaN, log of zero is minus-infinity, a finite
  number divided by an infinity is zero, and so on.  The sign of zero is
  not tracked (it never influences any property proved here).
* The transcendental logarithm on positive finite arguments is kept
  abstract: the definitions take an arbitrary function ln : Rat -> Rat as
  the finite part of the C log function.  No property proved below depends
  on the values of ln on positive arguments.
* C unsigned 16-bit readings are modelled by Nat; their subtraction in C
  happens after promotion to int, hence is modelled by subtraction in Int.
* Conversions from floating point to int32_t or uint32_t truncate toward
  zero; they are undefined behaviour outside the representable range and
  on non-finite values, so theorems about them stay inside the defined
  range.
* Configuration constants that live in setup.h (which is not part of the
  sources) are parameters of the model, collected in Config.
-/

namespace Bulebule

/-- IEEE-style floating point value: an exact rational, an infinity, or
NaN.  Finite arithmetic is exact; special values follow IEEE 754. -/
inductive FV where
  | fin : ℚ → FV
  | pinf : FV
  | ninf : FV
  | nan : FV
deriving DecidableEq, Repr

/-- True exactly on finite values (neither an infinity nor NaN). -/
def FV.isFinite : FV → Bool
  | FV.fin _ => true
  | _ => false

/-- IEEE negation. -/
def FV.neg : FV → FV
  | FV.fin q => FV.fin (-q)
  | FV.pinf => FV.ninf
  | FV.ninf => FV.pinf
  | FV.nan => FV.nan

/-- IEEE addition: NaN propagates, opposite infinities give NaN. -/
def FV.add : FV → FV → FV
  | FV.nan, _ => FV.nan
  | _, FV.nan => FV.nan
  | FV.pinf, FV.ninf => FV.nan
  | FV.ninf, FV.pinf => FV.nan
  | FV.pinf, _ => FV.pinf
  | _, FV.pinf => FV.pinf
  | FV.ninf, _ => FV.ninf
  | _, FV.ninf => FV.ninf
  | FV.fin a, FV.fin b => FV.fin (a + b)

/-- IEEE subtraction, defined as addition of the negation. -/
def FV.sub (a b : FV) : FV := FV.add a (FV.neg b)

/-- IEEE multiplication: NaN propagates, infinity times zero is NaN. -/
def FV.mul : FV → FV → FV
  | FV.nan, _ => FV.nan
  | _, FV.nan => FV.nan
  | FV.pinf, FV.pinf => FV.pinf
  | FV.pinf, FV.ninf => FV.ninf
  | FV.ninf, FV.pinf => FV.ninf
  | FV.ninf, FV.ninf => FV.pinf
  | FV.pinf, FV.fin b => if 0 < b then FV.pinf else if b < 0 then FV.ninf else FV.nan
  | FV.fin a, FV.pinf => if 0 < a then FV.pinf else if a < 0 then FV.ninf else FV.nan
  | FV.ninf, FV.fin b => if 0 < b then FV.ninf else if b < 0 then FV.pinf else FV.nan
  | FV.fin a, FV.ninf => if 0 < a then FV.ninf else if a < 0 then FV.pinf else FV.nan
  | FV.fin a, FV.fin b => FV.fin (a * b)

/-- IEEE division: NaN propagates, infinity over infinity is NaN, zero
over zero is NaN, a finite nonzero number over zero is a signed infinity
(the sign of zero is not tracked, the divisor zero is treated as positive),
a finite number over an infinity is zero. -/
def FV.div : FV → FV → FV
  | FV.nan, _ => FV.nan
  | _, FV.nan => FV.nan
  | FV.pinf, FV.pinf => FV.nan
  | FV.pinf, FV.ninf => FV.nan
  | FV.ninf, FV.pinf => FV.nan
  | FV.ninf, FV.ninf => FV.nan
  | FV.pinf, FV.fin b => if b < 0 then FV.ninf else FV.pinf
  | FV.ninf, FV.fin b => if b < 0 then FV.pinf else FV.ninf
  | FV.fin _, FV.pinf => FV.fin 0
  | FV.fin _, FV.ninf => FV.fin 0
  | FV.fin a, FV.fin b =>
      if b = 0 then (if a = 0 then FV.nan else if 0 < a then FV.pinf else FV.ninf)
      else FV.fin (a / b)

/-- IEEE ordered less-than as a Bool: any comparison involving NaN is
false, minus-infinity is below everything else, plus-infinity above. -/
def FV.lt : FV → FV → Bool
  | FV.nan, _ => false
  | _, FV.nan => false
  | FV.ninf, FV.ninf => false
  | FV.ninf, _ => true
  | _, FV.ninf => false
  | FV.pinf, _ => false
  | _, FV.pinf => true
  | FV.fin a, FV.fin b => decide (a < b)

/-- The C log function on FV values: NaN on negative arguments (and on
NaN and minus-infinity), minus-infinity at zero, plus-infinity at
plus-infinity, and an abstract function ln on positive finite arguments. -/
def FV.logC (ln : ℚ → ℚ) : FV → FV
  | FV.nan => FV.nan
  | FV.ninf => FV.nan
  | FV.pinf => FV.pinf
  | FV.fin q => if q < 0 then FV.nan else if q = 0 then FV.ninf else FV.fin (ln q)

/-- Truncation toward zero of a rational, as the C float-to-integer
conversion does inside the representable range. -/
def ratTrunc (q : ℚ) : ℤ := if 0 ≤ q then ⌊q⌋ else ⌈q⌉

/-- The C cast (int32_t) from a floating point value.  Only meaningful on
finite values whose truncation fits in int32_t; everything else is
undefined behaviour in C and is mapped to 0 here. -/
def c_float_to_int32 : FV → ℤ
  | FV.fin q => ratTrunc q
  | _ => 0

/-- The C cast (uint32_t) from a floating point value.  Only meaningful on
finite nonnegative values whose truncation fits in uint32_t; everything
else is undefined behaviour in C and is mapped to 0 here. -/
def c_float_to_uint32 : FV → ℕ
  | FV.fin q => (ratTrunc q).toNat
  | _ => 0

/-- MICROMETERS_PER_METER from the configuration headers. -/
def MICROMETERS_PER_METER : ℚ := 1000000

/-- Configuration constants from setup.h (not part of the sources): the
cell dimension and middle-of-maze distance in meters, and the per-sensor
calibration coefficient arrays from detection.c. -/
structure Config where
  CELL_DIMENSION : ℚ
  MIDDLE_MAZE_DISTANCE : ℚ
  sensors_calibration_a : Fin 4 → ℚ
  sensors_calibration_b : Fin 4 → ℚ

/-- SENSOR_SIDE_LEFT_ID. -/
def SENSOR_SIDE_LEFT_ID : Fin 4 := 0

/-- SENSOR_SIDE_RIGHT_ID. -/
def SENSOR_SIDE_RIGHT_ID : Fin 4 := 1

/-- SENSOR_FRONT_LEFT_ID. -/
def SENSOR_FRONT_LEFT_ID : Fin 4 := 2

/-- SENSOR_FRONT_RIGHT_ID. -/
def SENSOR_FRONT_RIGHT_ID : Fin 4 := 3

/-- The mutable module state of detection.c: the raw emitter-off and
emitter-on readings (uint16), the derived distances (float) and the
per-sensor drift calibration factors (float, nonzero only for the two
side sensors). -/
structure DetectionState where
  sensors_off : Fin 4 → ℕ
  sensors_on : Fin 4 → ℕ
  distance : Fin 4 → FV
  calibration_factor : Fin 4 → FV

/-- update_distance_readings from detection.c: for every sensor i the
distance becomes a i / log(on i - off i) - b i, and for the two side
sensors the drift calibration factor is additionally subtracted.  The
uint16 readings are subtracted after integer promotion, then converted to
floating point. -/
def update_distance_readings (cfg : Config) (ln : ℚ → ℚ) (s : DetectionState) :
    DetectionState :=
  { s with
    distance := fun i =>
      let base :=
        FV.sub
          (FV.div (FV.fin (cfg.sensors_calibration_a i))
            (FV.logC ln (FV.fin (((s.sensors_on i : ℤ) - (s.sensors_off i : ℤ) : ℤ) : ℚ))))
          (FV.fin (cfg.sensors_calibration_b i))
      if i = SENSOR_SIDE_LEFT_ID ∨ i = SENSOR_SIDE_RIGHT_ID then
        FV.sub base (s.calibration_factor i)
      else base }

/-- SIDE_WALL_DETECTION = CELL_DIMENSION * 0.90. -/
def SIDE_WALL_DETECTION (cfg : Config) : ℚ := cfg.CELL_DIMENSION * (9 / 10)

/-- FRONT_WALL_DETECTION = CELL_DIMENSION * 1.5. -/
def FRONT_WALL_DETECTION (cfg : Config) : ℚ := cfg.CELL_DIMENSION * (3 / 2)

/-- left_wall_detection from detection.c. -/
def left_wall_detection (cfg : Config) (s : DetectionState) : Bool :=
  FV.lt (s.distance SENSOR_SIDE_LEFT_ID) (FV.fin (SIDE_WALL_DETECTION cfg))

/-- right_wall_detection from detection.c. -/
def right_wall_detection (cfg : Config) (s : DetectionState) : Bool :=
  FV.lt (s.distance SENSOR_SIDE_RIGHT_ID) (FV.fin (SIDE_WALL_DETECTION cfg))

/-- front_wall_detection from detection.c. -/
def front_wall_detection (cfg : Config) (s : DetectionState) : Bool :=
  FV.lt (s.distance SENSOR_FRONT_LEFT_ID) (FV.fin (FRONT_WALL_DETECTION cfg)) &&
  FV.lt (s.distance SENSOR_FRONT_RIGHT_ID) (FV.fin (FRONT_WALL_DETECTION cfg))

/-- get_front_wall_distance from detection.c. -/
def get_front_wall_distance (s : DetectionState) : FV :=
  FV.div
    (FV.add (s.distance SENSOR_FRONT_LEFT_ID) (s.distance SENSOR_FRONT_RIGHT_ID))
    (FV.fin 2)

/-- get_side_sensors_error from detection.c: the first branch fires when
the side-left distance is above and the side-right distance below
MIDDLE_MAZE_DISTANCE, the second branch in the mirrored case, and the
error is zero otherwise (C comparisons against NaN are false). -/
def get_side_sensors_error (cfg : Config) (s : DetectionState) : FV :=
  if FV.lt (FV.fin cfg.MIDDLE_MAZE_DISTANCE) (s.distance SENSOR_SIDE_LEFT_ID) &&
     FV.lt (s.distance SENSOR_SIDE_RIGHT_ID) (FV.fin cfg.MIDDLE_MAZE_DISTANCE) then
    FV.sub (s.distance SENSOR_SIDE_RIGHT_ID) (FV.fin cfg.MIDDLE_MAZE_DISTANCE)
  else if FV.lt (FV.fin cfg.MIDDLE_MAZE_DISTANCE) (s.distance SENSOR_SIDE_RIGHT_ID) &&
          FV.lt (s.distance SENSOR_SIDE_LEFT_ID) (FV.fin cfg.MIDDLE_MAZE_DISTANCE) then
    FV.sub (FV.fin cfg.MIDDLE_MAZE_DISTANCE) (s.distance SENSOR_SIDE_LEFT_ID)
  else FV.fin 0

/-- SIDE_CALIBRATION_READINGS from detection.c. -/
def SIDE_CALIBRATION_READINGS : ℕ := 20

/-- The floating point accumulator of the calibration loop: after n
iterations it holds ((0 + sel 0) + sel 1) + ... + sel (n - 1), exactly
the order in which the C loop adds the observed distances. -/
def calibration_acc (sel : ℕ → FV) : ℕ → FV
  | 0 => FV.fin 0
  | n + 1 => FV.add (calibration_acc sel n) (sel n)

/-- side_sensors_calibration from detection.c.  The loop body reads the
volatile side distances once per iteration (20 iterations, sleeping
between them); samples k is the pair (left, right) of observed distances
at iteration k.  Both accumulators start at 0 and are summed in loop
order; each mean minus MIDDLE_MAZE_DISTANCE is then added to the
corresponding existing calibration factor. -/
def side_sensors_calibration (cfg : Config) (samples : ℕ → FV × FV)
    (factor : Fin 4 → FV) : Fin 4 → FV :=
  let left_temp := calibration_acc (fun k => (samples k).1) SIDE_CALIBRATION_READINGS
  let right_temp := calibration_acc (fun k => (samples k).2) SIDE_CALIBRATION_READINGS
  fun i =>
    if i = SENSOR_SIDE_LEFT_ID then
      FV.add (factor i)
        (FV.sub (FV.div left_temp (FV.fin (SIDE_CALIBRATION_READINGS : ℚ)))
          (FV.fin cfg.MIDDLE_MAZE_DISTANCE))
    else if i = SENSOR_SIDE_RIGHT_ID then
      FV.add (factor i)
        (FV.sub (FV.div right_temp (FV.fin (SIDE_CALIBRATION_READINGS : ℚ)))
          (FV.fin cfg.MIDDLE_MAZE_DISTANCE))
    else factor i

/-- The cell-relative bookkeeping state of move.c: the odometry position
recorded on entering the current cell (int32, in micrometers) and the
sub-cell shift (float, in meters). -/
structure MoveState where
  current_cell_start_micrometers : ℤ
  cell_shift : ℚ

/-- entered_next_cell from move.c: record the current odometry reading as
the new cell start; if a front wall is detected, add the int32 truncation
of (front wall distance - CELL_DIMENSION) * MICROMETERS_PER_METER to it;
reset cell_shift to 0.  The encoder argument is the value returned by
get_encoder_average_micrometers at that moment and det is the current
detection module state. -/
def entered_next_cell (cfg : Config) (encoder : ℤ) (det : DetectionState)
    (_old : MoveState) : MoveState :=
  let start := encoder
  if front_wall_detection cfg det then
    let front_wall_correction :=
      c_float_to_int32
        (FV.mul (FV.sub (get_front_wall_distance det) (FV.fin cfg.CELL_DIMENSION))
          (FV.fin MICROMETERS_PER_METER))
    { current_cell_start_micrometers := start + front_wall_correction,
      cell_shift := 0 }
  else
    { current_cell_start_micrometers := start, cell_shift := 0 }

/-- required_micrometers_to_speed from move.c.  The external getters
get_target_linear_speed, get_linear_acceleration and
get_linear_deceleration are the parameters target_speed,
linear_acceleration and linear_deceleration; speed is the function
argument.  The float result is cast to uint32_t. -/
def required_micrometers_to_speed (linear_acceleration linear_deceleration
    target_speed speed : ℚ) : ℕ :=
  let acceleration : ℚ :=
    if target_speed > speed then -linear_deceleration else linear_acceleration
  c_float_to_uint32
    (FV.mul
      (FV.div (FV.fin (speed * speed - target_speed * target_speed))
        (FV.fin (2 * acceleration)))
      (FV.fin MICROMETERS_PER_METER))

/-- Control position inside turn_left or turn_right: spinning in the
first busy-wait loop (angular speed set to minus or plus 8 pi), spinning
in the second busy-wait loop (angular speed set back to 0), or returned. -/
inductive TurnPhase where
  | first : TurnPhase
  | second : TurnPhase
  | done : TurnPhase
deriving DecidableEq, Repr

/-- Observable state of a turn maneuver: the loop currently spinning and
the last angular speed commanded to the low-level controller. -/
structure TurnState where
  phase : TurnPhase
  target_angular_speed : ℚ

/-- The uint32 subtraction get_clock_ticks() - starting_time used by the
turn busy-wait loops, on true (unwrapped) tick counts with now >= start. -/
def elapsed32 (start now : ℕ) : ℕ := (now - start) % 4294967296

/-- State of a turn right after set_target_angular_speed(w) and before
any clock tick has elapsed: the first busy-wait loop is being entered. -/
def turn_begin (w : ℚ) : TurnState := { phase := TurnPhase.first, target_angular_speed := w }

/-- One observation of the clock by the turn control flow, at true tick
count now for a maneuver started at true tick count start.  The first
loop spins while the uint32 elapsed count is at most 88; on exit the code
commands angular speed 0 and falls into the second loop, which spins
while the elapsed count is at most 176. -/
def turn_poll (start now : ℕ) (s : TurnState) : TurnState :=
  match s.phase with
  | TurnPhase.first =>
      if elapsed32 start now ≤ 88 then s
      else if elapsed32 start now ≤ 176 then
        { phase := TurnPhase.second, target_angular_speed := 0 }
      else { phase := TurnPhase.done, target_angular_speed := 0 }
  | TurnPhase.second =>
      if elapsed32 start now ≤ 176 then s
      else { phase := TurnPhase.done, target_angular_speed := s.target_angular_speed }
  | TurnPhase.done => s

/-- The turn maneuver observed e clock ticks after its start: the initial
command followed by one poll per elapsed tick (the busy loops poll
continuously, but the state can only change when the clock advances). -/
def turn_run (start : ℕ) (w : ℚ) : ℕ → TurnState
  | 0 => turn_begin w
  | e + 1 => turn_poll start (start + (e + 1)) (turn_run start w e)

/-- turn_left from move.c: commands angular speed -8 pi, then 0, driven
by the two fixed busy-wait windows.  PI is the floating point constant
from the configuration headers; start is the get_clock_ticks value at
entry; the result is the observable state e ticks later. -/
def turn_left (PI : ℚ) (start e : ℕ) : TurnState :=
  turn_run start (-(8 * PI)) e

/-- turn_right from move.c: same as turn_left with angular speed +8 pi. -/
def turn_right (PI : ℚ) (start e : ℕ) : TurnState :=
  turn_run start (8 * PI) e

/-- NUM_SENSOR. -/
def NUM_SENSOR : ℕ := 4

/-- State of the sm_emitter_adc state machine of detection.c: the two
static locals (emitter_status, starting at 1, and sensor_index, starting
at SENSOR_SIDE_LEFT_ID = 0) together with the four emitter GPIO pins
(A9 = side left, B8 = side right, A8 = front left, B9 = front right),
all low at reset.  The ADC conversions started and read by the machine
are external effects and are not part of this state. -/
structure SmState where
  emitter_status : ℕ
  sensor_index : ℕ
  gpioa9 : Bool
  gpiob8 : Bool
  gpioa8 : Bool
  gpiob9 : Bool
deriving DecidableEq, Repr

/-- set_emitter_on from detection.c: raise the GPIO pin of the given
sensor id (0 side left, 1 side right, 2 front left, 3 front right);
unknown ids do nothing. -/
def set_emitter_on (emitter : ℕ) (s : SmState) : SmState :=
  if emitter = 0 then { s with gpioa9 := true }
  else if emitter = 1 then { s with gpiob8 := true }
  else if emitter = 2 then { s with gpioa8 := true }
  else if emitter = 3 then { s with gpiob9 := true }
  else s

/-- set_emitter_off from detection.c: clear the GPIO pin of the given
sensor id; unknown ids do nothing. -/
def set_emitter_off (emitter : ℕ) (s : SmState) : SmState :=
  if emitter = 0 then { s with gpioa9 := false }
  else if emitter = 1 then { s with gpiob8 := false }
  else if emitter = 2 then { s with gpioa8 := false }
  else if emitter = 3 then { s with gpiob9 := false }
  else s

/-- One invocation of sm_emitter_adc (one timer tick): state 1 records
the emitter-off reading and arms the emitter of the active sensor, state
2 starts the illuminated conversion, state 3 records the emitter-on
reading and disarms the emitter, state 4 starts the next conversion and
advances the sensor index with wraparound at NUM_SENSOR - 1. -/
def sm_emitter_adc (s : SmState) : SmState :=
  if s.emitter_status = 1 then
    { set_emitter_on s.sensor_index s with emitter_status := 2 }
  else if s.emitter_status = 2 then
    { s with emitter_status := 3 }
  else if s.emitter_status = 3 then
    { set_emitter_off s.sensor_index s with emitter_status := 4 }
  else if s.emitter_status = 4 then
    if s.sensor_index = NUM_SENSOR - 1 then
      { s with emitter_status := 1, sensor_index := 0 }
    else
      { s with emitter_status := 1, sensor_index := s.sensor_index + 1 }
  else s

/-- The reset state of the sensor cycle: status 1, sensor index 0, all
emitters off. -/
def sm_init : SmState :=
  { emitter_status := 1, sensor_index := 0,
    gpioa9 := false, gpiob8 := false, gpioa8 := false, gpiob9 := false }

/-- The sensor cycle after n timer ticks from reset. -/
def sm_run : ℕ → SmState
  | 0 => sm_init
  | n + 1 => sm_emitter_adc (sm_run n)

/-- Whether the emitter of sensor id i is armed in state s (the GPIO pin
assignment of set_emitter_on). -/
def emitter_armed (s : SmState) (i : ℕ) : Bool :=
  if i = 0 then s.gpioa9
  else if i = 1 then s.gpiob8
  else if i = 2 then s.gpioa8
  else if i = 3 then s.gpiob9
  else false

/-! Basic lemmas about the floating point model. -/

theorem fv_lt_nan_left (y : FV) : FV.lt FV.nan y = false := by
  cases y <;> rfl

theorem fv_lt_nan_right (x : FV) : FV.lt x FV.nan = false := by
  cases x <;> rfl

theorem fv_lt_fin_self (q : ℚ) : FV.lt (FV.fin q) (FV.fin q) = false := by
  simp [FV.lt]

theorem fv_lt_asymm (a b : FV) (h : FV.lt a b = true) : FV.lt b a = false := by
  cases a <;> cases b <;> simp [FV.lt] at h ⊢
  exact le_of_lt h

theorem fv_add_nan_left (y : FV) : FV.add FV.nan y = FV.nan := by
  cases y <;> rfl

theorem fv_sub_nan_left (y : FV) : FV.sub FV.nan y = FV.nan := by
  cases y <;> rfl

theorem fv_add_fin_zero (x : FV) : FV.add x (FV.fin 0) = x := by
  cases x <;> simp [FV.add]

theorem fv_div_fin_nan (q : ℚ) : FV.div (FV.fin q) FV.nan = FV.nan := rfl

theorem fv_div_fin_ninf (q : ℚ) : FV.div (FV.fin q) FV.ninf = FV.fin 0 := rfl

/-! Concrete fixtures used by counterexamples and witnesses.  The setup.h
constants are not part of the sources; the geometry below is the one
recorded by the calibration notebooks of this repository (180 mm cells,
12 mm walls, hence a middle-of-corridor wall distance of 84 mm) and the
calibration coefficients are the realistic fitted pair a = 0.6,
b = 0.05. -/

/-- Concrete configuration: CELL_DIMENSION 0.18, MIDDLE_MAZE_DISTANCE
0.084, a = 0.6 and b = 0.05 for every sensor. -/
def cfgW : Config :=
  { CELL_DIMENSION := 9 / 50,
    MIDDLE_MAZE_DISTANCE := 21 / 250,
    sensors_calibration_a := fun _ => 3 / 5,
    sensors_calibration_b := fun _ => 1 / 20 }

/-- An arbitrary finite logarithm table (its values are irrelevant to
every property below). -/
def lnW : ℚ → ℚ := fun _ => 0

/-- Detection state with equal raw on and off readings everywhere. -/
def detW2 : DetectionState :=
  { sensors_off := fun _ => 100,
    sensors_on := fun _ => 100,
    distance := fun _ => FV.fin 0,
    calibration_factor := fun _ => FV.fin 0 }

/-- Detection state with side-left distance 0.10 and side-right distance
0.05: both below the 0.162 side wall detection threshold of cfgW, on
opposite sides of its 0.084 middle-of-maze distance. -/
def detW3 : DetectionState :=
  { sensors_off := fun _ => 0,
    sensors_on := fun _ => 0,
    distance := fun i =>
      if i = SENSOR_SIDE_LEFT_ID then FV.fin (1 / 10)
      else if i = SENSOR_SIDE_RIGHT_ID then FV.fin (1 / 20)
      else FV.fin 0,
    calibration_factor := fun _ => FV.fin 0 }

/-- Detection state whose side-left distance sits exactly at the side
wall detection threshold of cfgW and whose other distances are NaN. -/
def detW8 : DetectionState :=
  { sensors_off := fun _ => 0,
    sensors_on := fun _ => 0,
    distance := fun i =>
      if i = SENSOR_SIDE_LEFT_ID then FV.fin (81 / 500) else FV.nan,
    calibration_factor := fun _ => FV.fin 0 }

/-- Detection state with a NaN side-left distance and ordinary readings
elsewhere. -/
def detW10 : DetectionState :=
  { sensors_off := fun _ => 0,
    sensors_on := fun _ => 0,
    distance := fun i =>
      if i = SENSOR_SIDE_LEFT_ID then FV.nan else FV.fin (1 / 20),
    calibration_factor := fun _ => FV.fin 0 }

/-- C1: after update_distance_readings, the stored distance of every
sensor i is a i / log(raw_on i - raw_off i) - b i, with the drift
calibration factor additionally subtracted for the side-left and
side-right sensors and for no other sensor. -/
theorem update_distance_readings_formula (cfg : Config) (ln : ℚ → ℚ)
    (s : DetectionState) (i : Fin 4) :
    (update_distance_readings cfg ln s).distance i =
      if i = SENSOR_SIDE_LEFT_ID ∨ i = SENSOR_SIDE_RIGHT_ID then
        FV.sub
          (FV.sub
            (FV.div (FV.fin (cfg.sensors_calibration_a i))
              (FV.logC ln
                (FV.fin (((s.sensors_on i : ℤ) - (s.sensors_off i : ℤ) : ℤ) : ℚ))))
            (FV.fin (cfg.sensors_calibration_b i)))
          (s.calibration_factor i)
      else
        FV.sub
          (FV.div (FV.fin (cfg.sensors_calibration_a i))
            (FV.logC ln
              (FV.fin (((s.sensors_on i : ℤ) - (s.sensors_off i : ℤ) : ℤ) : ℚ))))
          (FV.fin (cfg.sensors_calibration_b i)) := rfl

/-- C2 counterexample: with equal raw on and off readings the logarithm
argument is zero, yet the computed distance is finite (log(0) is minus
infinity, a finite coefficient divided by minus infinity is zero, and
zero minus b is the finite value -b). -/
theorem update_distance_zero_gap_finite :
    ((detW2.sensors_on SENSOR_FRONT_LEFT_ID : ℤ) -
        (detW2.sensors_off SENSOR_FRONT_LEFT_ID : ℤ) ≤ 0) ∧
    ((update_distance_readings cfgW lnW detW2).distance
        SENSOR_FRONT_LEFT_ID).isFinite = true := by
  decide

/-- C2 amended: a strictly negative reading gap makes the distance NaN,
while a zero gap makes the logarithm minus infinity and the distance the
finite value -b (with the drift factor additionally subtracted for the
side sensors). -/
theorem update_distance_nonpositive_gap (cfg : Config) (ln : ℚ → ℚ)
    (s : DetectionState) (i : Fin 4) :
    ((s.sensors_on i : ℤ) - (s.sensors_off i : ℤ) < 0 →
      (update_distance_readings cfg ln s).distance i = FV.nan) ∧
    ((s.sensors_on i : ℤ) - (s.sensors_off i : ℤ) = 0 →
      (update_distance_readings cfg ln s).distance i =
        if i = SENSOR_SIDE_LEFT_ID ∨ i = SENSOR_SIDE_RIGHT_ID then
          FV.sub (FV.fin (-cfg.sensors_calibration_b i)) (s.calibration_factor i)
        else FV.fin (-cfg.sensors_calibration_b i)) := by
  constructor
  · intro h
    have hq : (((s.sensors_on i : ℤ) - (s.sensors_off i : ℤ) : ℤ) : ℚ) < 0 := by
      exact_mod_cast h
    have hlog : FV.logC ln
        (FV.fin (((s.sensors_on i : ℤ) - (s.sensors_off i : ℤ) : ℤ) : ℚ)) = FV.nan := by
      simp only [FV.logC]
      rw [if_pos hq]
    rw [update_distance_readings_formula, hlog, fv_div_fin_nan]
    simp [fv_sub_nan_left]
  · intro h
    have hq : (((s.sensors_on i : ℤ) - (s.sensors_off i : ℤ) : ℤ) : ℚ) = 0 := by
      exact_mod_cast h
    have hlog : FV.logC ln
        (FV.fin (((s.sensors_on i : ℤ) - (s.sensors_off i : ℤ) : ℤ) : ℚ)) = FV.ninf := by
      rw [hq]
      simp [FV.logC]
    have hsub : FV.sub (FV.fin 0) (FV.fin (cfg.sensors_calibration_b i)) =
        FV.fin (-cfg.sensors_calibration_b i) := by
      simp [FV.sub, FV.add, FV.neg]
    rw [update_distance_readings_formula, hlog, fv_div_fin_ninf, hsub]

/-- C2 amended witness: a concrete negative gap yields NaN and a concrete
zero gap yields the finite value -b. -/
theorem update_distance_nonpositive_gap_witness :
    (update_distance_readings cfgW lnW
        { detW2 with sensors_on := fun _ => 50 }).distance SENSOR_FRONT_LEFT_ID =
      FV.nan ∧
    (update_distance_readings cfgW lnW detW2).distance SENSOR_FRONT_LEFT_ID =
      FV.fin (-cfgW.sensors_calibration_b SENSOR_FRONT_LEFT_ID) :=
  ⟨(update_distance_nonpositive_gap cfgW lnW
      { detW2 with sensors_on := fun _ => 50 } SENSOR_FRONT_LEFT_ID).1 (by decide),
   (update_distance_nonpositive_gap cfgW lnW detW2 SENSOR_FRONT_LEFT_ID).2 (by decide)⟩

/-- C3 counterexample: with the notebook geometry (cell 0.18 m, middle
distance 0.084 m) both side walls are present in the Wall Detector sense
(both side distances are below 0.9 * CELL_DIMENSION), yet
get_side_sensors_error is nonzero, because its branch conditions compare
against MIDDLE_MAZE_DISTANCE instead of the wall detection threshold. -/
theorem side_sensors_error_both_walls_nonzero :
    left_wall_detection cfgW detW3 = true ∧
    right_wall_detection cfgW detW3 = true ∧
    get_side_sensors_error cfgW detW3 ≠ FV.fin 0 := by
  refine ⟨?_, ?_, ?_⟩ <;>
    norm_num [left_wall_detection, right_wall_detection, get_side_sensors_error,
      SIDE_WALL_DETECTION, cfgW, detW3, FV.lt, FV.sub, FV.add, FV.neg,
      SENSOR_SIDE_LEFT_ID, SENSOR_SIDE_RIGHT_ID]

/-- C3 amended: get_side_sensors_error returns side_right - MIDDLE when
side_left is strictly above and side_right strictly below
MIDDLE_MAZE_DISTANCE, MIDDLE - side_left in the mirrored case, and 0
otherwise; the branch conditions compare the side distances against
MIDDLE_MAZE_DISTANCE, not against the Wall Detector presence threshold. -/
theorem side_sensors_error_cases (cfg : Config) (s : DetectionState) :
    (FV.lt (FV.fin cfg.MIDDLE_MAZE_DISTANCE) (s.distance SENSOR_SIDE_LEFT_ID) = true →
      FV.lt (s.distance SENSOR_SIDE_RIGHT_ID) (FV.fin cfg.MIDDLE_MAZE_DISTANCE) = true →
      get_side_sensors_error cfg s =
        FV.sub (s.distance SENSOR_SIDE_RIGHT_ID) (FV.fin cfg.MIDDLE_MAZE_DISTANCE)) ∧
    (FV.lt (FV.fin cfg.MIDDLE_MAZE_DISTANCE) (s.distance SENSOR_SIDE_RIGHT_ID) = true →
      FV.lt (s.distance SENSOR_SIDE_LEFT_ID) (FV.fin cfg.MIDDLE_MAZE_DISTANCE) = true →
      get_side_sensors_error cfg s =
        FV.sub (FV.fin cfg.MIDDLE_MAZE_DISTANCE) (s.distance SENSOR_SIDE_LEFT_ID)) ∧
    ((FV.lt (FV.fin cfg.MIDDLE_MAZE_DISTANCE) (s.distance SENSOR_SIDE_LEFT_ID) = false ∨
        FV.lt (s.distance SENSOR_SIDE_RIGHT_ID) (FV.fin cfg.MIDDLE_MAZE_DISTANCE) = false) →
      (FV.lt (FV.fin cfg.MIDDLE_MAZE_DISTANCE) (s.distance SENSOR_SIDE_RIGHT_ID) = false ∨
        FV.lt (s.distance SENSOR_SIDE_LEFT_ID) (FV.fin cfg.MIDDLE_MAZE_DISTANCE) = false) →
      get_side_sensors_error cfg s = FV.fin 0) := by
  refine ⟨?_, ?_, ?_⟩
  · intro h1 h2
    simp [get_side_sensors_error, h1, h2]
  · intro h1 h2
    have h3 : FV.lt (FV.fin cfg.MIDDLE_MAZE_DISTANCE) (s.distance SENSOR_SIDE_LEFT_ID) =
        false := fv_lt_asymm _ _ h2
    simp [get_side_sensors_error, h1, h2, h3]
  · intro h1 h2
    rcases h1 with h1 | h1 <;> rcases h2 with h2 | h2 <;>
      simp [get_side_sensors_error, h1, h2]

/-- C3 amended witness: in detW3 the side-left distance is above and the
side-right distance below the middle-of-maze distance, so the error is
side_right minus MIDDLE_MAZE_DISTANCE. -/
theorem side_sensors_error_cases_witness :
    get_side_sensors_error cfgW detW3 =
      FV.sub (detW3.distance SENSOR_SIDE_RIGHT_ID)
        (FV.fin cfgW.MIDDLE_MAZE_DISTANCE) :=
  (side_sensors_error_cases cfgW detW3).1
    (by norm_num [cfgW, detW3, FV.lt, SENSOR_SIDE_LEFT_ID, SENSOR_SIDE_RIGHT_ID])
    (by norm_num [cfgW, detW3, FV.lt, SENSOR_SIDE_LEFT_ID, SENSOR_SIDE_RIGHT_ID])

/-- C8: the three wall detections are exactly the strict IEEE comparisons
of the distances against 0.9 * CELL_DIMENSION (sides) and
1.5 * CELL_DIMENSION (both front sensors); a distance exactly at its
threshold, or a NaN distance, yields not detected. -/
theorem wall_detection_thresholds (cfg : Config) (s : DetectionState) :
    (left_wall_detection cfg s =
      FV.lt (s.distance SENSOR_SIDE_LEFT_ID)
        (FV.fin (cfg.CELL_DIMENSION * (9 / 10)))) ∧
    (right_wall_detection cfg s =
      FV.lt (s.distance SENSOR_SIDE_RIGHT_ID)
        (FV.fin (cfg.CELL_DIMENSION * (9 / 10)))) ∧
    (front_wall_detection cfg s =
      (FV.lt (s.distance SENSOR_FRONT_LEFT_ID)
          (FV.fin (cfg.CELL_DIMENSION * (3 / 2))) &&
        FV.lt (s.distance SENSOR_FRONT_RIGHT_ID)
          (FV.fin (cfg.CELL_DIMENSION * (3 / 2))))) ∧
    (s.distance SENSOR_SIDE_LEFT_ID = FV.fin (cfg.CELL_DIMENSION * (9 / 10)) →
      left_wall_detection cfg s = false) ∧
    (s.distance SENSOR_SIDE_LEFT_ID = FV.nan → left_wall_detection cfg s = false) ∧
    (s.distance SENSOR_SIDE_RIGHT_ID = FV.fin (cfg.CELL_DIMENSION * (9 / 10)) →
      right_wall_detection cfg s = false) ∧
    (s.distance SENSOR_SIDE_RIGHT_ID = FV.nan → right_wall_detection cfg s = false) ∧
    (s.distance SENSOR_FRONT_LEFT_ID = FV.fin (cfg.CELL_DIMENSION * (3 / 2)) →
      front_wall_detection cfg s = false) ∧
    (s.distance SENSOR_FRONT_RIGHT_ID = FV.fin (cfg.CELL_DIMENSION * (3 / 2)) →
      front_wall_detection cfg s = false) ∧
    (s.distance SENSOR_FRONT_LEFT_ID = FV.nan → front_wall_detection cfg s = false) ∧
    (s.distance SENSOR_FRONT_RIGHT_ID = FV.nan → front_wall_detection cfg s = false) := by
  refine ⟨rfl, rfl, rfl, ?_, ?_, ?_, ?_, ?_, ?_, ?_, ?_⟩ <;> intro h <;>
    simp [left_wall_detection, right_wall_detection, front_wall_detection,
      SIDE_WALL_DETECTION, FRONT_WALL_DETECTION, h, fv_lt_fin_self,
      fv_lt_nan_left]

/-- C8 witness: a side-left distance exactly at the side threshold and
NaN readings elsewhere yield no detected wall at all. -/
theorem wall_detection_thresholds_witness :
    left_wall_detection cfgW detW8 = false ∧
    right_wall_detection cfgW detW8 = false ∧
    front_wall_detection cfgW detW8 = false :=
  ⟨(wall_detection_thresholds cfgW detW8).2.2.2.1
      (by norm_num [detW8, cfgW, SENSOR_SIDE_LEFT_ID]),
   (wall_detection_thresholds cfgW detW8).2.2.2.2.2.2.1 (by decide),
   (wall_detection_thresholds cfgW detW8).2.2.2.2.2.2.2.2.2.1 (by decide)⟩

/-- C10: whenever the side-left or the side-right distance is NaN,
get_side_sensors_error is 0 (every branch condition compares NaN and is
false), so the centering error fails safe to neutral. -/
theorem side_sensors_error_nan_zero (cfg : Config) (s : DetectionState)
    (h : s.distance SENSOR_SIDE_LEFT_ID = FV.nan ∨
      s.distance SENSOR_SIDE_RIGHT_ID = FV.nan) :
    get_side_sensors_error cfg s = FV.fin 0 := by
  rcases h with h | h <;>
    simp [get_side_sensors_error, h, fv_lt_nan_left, fv_lt_nan_right]

/-- C10 witness: with a NaN side-left distance the error is 0. -/
theorem side_sensors_error_nan_zero_witness :
    get_side_sensors_error cfgW detW10 = FV.fin 0 :=
  side_sensors_error_nan_zero cfgW detW10 (Or.inl (by decide))

/-- An arbitrary move state (both fields are overwritten by
entered_next_cell). -/
def m0 : MoveState := { current_cell_start_micrometers := 0, cell_shift := 0 }

/-- Detection state whose front distances are both exactly
CELL_DIMENSION of cfgW (front wall detected, measured distance 0.18). -/
def detW5a : DetectionState :=
  { sensors_off := fun _ => 0,
    sensors_on := fun _ => 0,
    distance := fun i =>
      if i = SENSOR_FRONT_LEFT_ID then FV.fin (9 / 50)
      else if i = SENSOR_FRONT_RIGHT_ID then FV.fin (9 / 50)
      else FV.fin 0,
    calibration_factor := fun _ => FV.fin 0 }

/-- Detection state whose front distances are both exactly
CELL_DIMENSION + 0.01 of cfgW (front wall detected, measured 0.19). -/
def detW5b : DetectionState :=
  { sensors_off := fun _ => 0,
    sensors_on := fun _ => 0,
    distance := fun i =>
      if i = SENSOR_FRONT_LEFT_ID then FV.fin (19 / 100)
      else if i = SENSOR_FRONT_RIGHT_ID then FV.fin (19 / 100)
      else FV.fin 0,
    calibration_factor := fun _ => FV.fin 0 }

/-- C5: entered_next_cell records the encoder reading as the new cell
start and resets cell_shift to 0; when a front wall is detected the
recorded start is additionally shifted by the int32 truncation of
(front wall distance - CELL_DIMENSION) * MICROMETERS_PER_METER; in
particular the shift is 0 when the measured distance is exactly
CELL_DIMENSION and +10000 micrometers when it is CELL_DIMENSION + 0.01. -/
theorem entered_next_cell_spec (cfg : Config) (encoder : ℤ)
    (det : DetectionState) (m : MoveState) :
    ((entered_next_cell cfg encoder det m).cell_shift = 0) ∧
    ((entered_next_cell cfg encoder det m).current_cell_start_micrometers =
      encoder +
        (if front_wall_detection cfg det then
          c_float_to_int32
            (FV.mul
              (FV.sub (get_front_wall_distance det) (FV.fin cfg.CELL_DIMENSION))
              (FV.fin MICROMETERS_PER_METER))
        else 0)) ∧
    (front_wall_detection cfg det = true →
      get_front_wall_distance det = FV.fin cfg.CELL_DIMENSION →
      (entered_next_cell cfg encoder det m).current_cell_start_micrometers =
        encoder) ∧
    (front_wall_detection cfg det = true →
      get_front_wall_distance det = FV.fin (cfg.CELL_DIMENSION + 1 / 100) →
      (entered_next_cell cfg encoder det m).current_cell_start_micrometers =
        encoder + 10000) := by
  refine ⟨?_, ?_, ?_, ?_⟩
  · unfold entered_next_cell
    split <;> rfl
  · unfold entered_next_cell
    split <;> simp
  · intro h1 h2
    unfold entered_next_cell
    rw [if_pos h1, h2]
    have hcorr : FV.mul
        (FV.sub (FV.fin cfg.CELL_DIMENSION) (FV.fin cfg.CELL_DIMENSION))
        (FV.fin MICROMETERS_PER_METER) = FV.fin 0 := by
      simp [FV.sub, FV.add, FV.neg, FV.mul]
    rw [hcorr]
    simp [c_float_to_int32, ratTrunc]
  · intro h1 h2
    unfold entered_next_cell
    rw [if_pos h1, h2]
    have hcorr : FV.mul
        (FV.sub (FV.fin (cfg.CELL_DIMENSION + 1 / 100)) (FV.fin cfg.CELL_DIMENSION))
        (FV.fin MICROMETERS_PER_METER) = FV.fin 10000 := by
      simp [FV.sub, FV.add, FV.neg, FV.mul, MICROMETERS_PER_METER]
      ring
    rw [hcorr]
    norm_num [c_float_to_int32, ratTrunc]

/-- C5 witness: with the cfgW geometry, a measured front distance of
exactly CELL_DIMENSION leaves the cell start at the encoder reading, and
a measured distance of CELL_DIMENSION + 0.01 shifts it by +10000
micrometers. -/
theorem entered_next_cell_spec_witness :
    (entered_next_cell cfgW 1000 detW5a m0).current_cell_start_micrometers = 1000 ∧
    (entered_next_cell cfgW 1000 detW5b m0).current_cell_start_micrometers =
      1000 + 10000 :=
  ⟨(entered_next_cell_spec cfgW 1000 detW5a m0).2.2.1
      (by norm_num [front_wall_detection, FRONT_WALL_DETECTION, cfgW, detW5a,
        FV.lt, SENSOR_FRONT_LEFT_ID, SENSOR_FRONT_RIGHT_ID])
      (by norm_num [get_front_wall_distance, cfgW, detW5a, FV.add, FV.div,
        SENSOR_FRONT_LEFT_ID, SENSOR_FRONT_RIGHT_ID]),
   (entered_next_cell_spec cfgW 1000 detW5b m0).2.2.2
      (by norm_num [front_wall_detection, FRONT_WALL_DETECTION, cfgW, detW5b,
        FV.lt, SENSOR_FRONT_LEFT_ID, SENSOR_FRONT_RIGHT_ID])
      (by norm_num [get_front_wall_distance, cfgW, detW5b, FV.add, FV.div,
        SENSOR_FRONT_LEFT_ID, SENSOR_FRONT_RIGHT_ID])⟩

/-- The accumulator of a window of identical finite samples is n times
the sample value. -/
theorem calibration_acc_const (q : ℚ) (sel : ℕ → FV) (n : ℕ)
    (h : ∀ k, k < n → sel k = FV.fin q) :
    calibration_acc sel n = FV.fin ((n : ℚ) * q) := by
  induction n with
  | zero => simp [calibration_acc]
  | succ m ih =>
    rw [calibration_acc, ih (fun k hk => h k (by omega)), h m (by omega)]
    simp only [FV.add, FV.fin.injEq]
    push_cast
    ring

/-- C6: side_sensors_calibration adds, to each side's existing drift
factor, the mean of that side's 20 observed distances minus
MIDDLE_MAZE_DISTANCE; the front factors are untouched; and when every
sample in the window equals MIDDLE_MAZE_DISTANCE both factors are left
unchanged (so the adjustment is additive, never a replacement, and
repeated invocations accumulate their deltas). -/
theorem side_sensors_calibration_spec (cfg : Config) (samples : ℕ → FV × FV)
    (factor : Fin 4 → FV) :
    (side_sensors_calibration cfg samples factor SENSOR_SIDE_LEFT_ID =
      FV.add (factor SENSOR_SIDE_LEFT_ID)
        (FV.sub
          (FV.div (calibration_acc (fun k => (samples k).1) SIDE_CALIBRATION_READINGS)
            (FV.fin (SIDE_CALIBRATION_READINGS : ℚ)))
          (FV.fin cfg.MIDDLE_MAZE_DISTANCE))) ∧
    (side_sensors_calibration cfg samples factor SENSOR_SIDE_RIGHT_ID =
      FV.add (factor SENSOR_SIDE_RIGHT_ID)
        (FV.sub
          (FV.div (calibration_acc (fun k => (samples k).2) SIDE_CALIBRATION_READINGS)
            (FV.fin (SIDE_CALIBRATION_READINGS : ℚ)))
          (FV.fin cfg.MIDDLE_MAZE_DISTANCE))) ∧
    (∀ i : Fin 4, i ≠ SENSOR_SIDE_LEFT_ID → i ≠ SENSOR_SIDE_RIGHT_ID →
      side_sensors_calibration cfg samples factor i = factor i) ∧
    ((∀ k, k < SIDE_CALIBRATION_READINGS →
        samples k = (FV.fin cfg.MIDDLE_MAZE_DISTANCE, FV.fin cfg.MIDDLE_MAZE_DISTANCE)) →
      ∀ i : Fin 4, side_sensors_calibration cfg samples factor i = factor i) := by
  have hmean : ∀ sel : ℕ → FV,
      (∀ k, k < SIDE_CALIBRATION_READINGS → sel k = FV.fin cfg.MIDDLE_MAZE_DISTANCE) →
      FV.sub
        (FV.div (calibration_acc sel SIDE_CALIBRATION_READINGS)
          (FV.fin (SIDE_CALIBRATION_READINGS : ℚ)))
        (FV.fin cfg.MIDDLE_MAZE_DISTANCE) = FV.fin 0 := by
    intro sel hsel
    rw [calibration_acc_const cfg.MIDDLE_MAZE_DISTANCE sel _ hsel]
    have h20 : ((SIDE_CALIBRATION_READINGS : ℕ) : ℚ) ≠ 0 := by
      norm_num [SIDE_CALIBRATION_READINGS]
    simp only [FV.div, if_neg h20, FV.sub, FV.neg, FV.add, FV.fin.injEq]
    field_simp
  refine ⟨?_, ?_, ?_, ?_⟩
  · simp [side_sensors_calibration]
  · simp [side_sensors_calibration, SENSOR_SIDE_LEFT_ID, SENSOR_SIDE_RIGHT_ID]
  · intro i h1 h2
    simp [side_sensors_calibration, h1, h2]
  · intro h i
    have hl := hmean (fun k => (samples k).1) (fun k hk => by simp [h k hk])
    have hr := hmean (fun k => (samples k).2) (fun k hk => by simp [h k hk])
    unfold side_sensors_calibration
    split
    · rw [hl, fv_add_fin_zero]
    · split
      · rw [hr, fv_add_fin_zero]
      · rfl

/-- C6 witness: with every sample equal to MIDDLE_MAZE_DISTANCE of cfgW,
the side-left drift factor is unchanged, and the front-left factor is
never touched. -/
theorem side_sensors_calibration_spec_witness :
    side_sensors_calibration cfgW
        (fun _ => (FV.fin cfgW.MIDDLE_MAZE_DISTANCE, FV.fin cfgW.MIDDLE_MAZE_DISTANCE))
        (fun _ => FV.fin (1 / 2)) SENSOR_SIDE_LEFT_ID =
      (fun _ : Fin 4 => FV.fin (1 / 2)) SENSOR_SIDE_LEFT_ID ∧
    side_sensors_calibration cfgW
        (fun _ => (FV.fin cfgW.MIDDLE_MAZE_DISTANCE, FV.fin cfgW.MIDDLE_MAZE_DISTANCE))
        (fun _ => FV.fin (1 / 2)) SENSOR_FRONT_LEFT_ID =
      (fun _ : Fin 4 => FV.fin (1 / 2)) SENSOR_FRONT_LEFT_ID :=
  ⟨(side_sensors_calibration_spec cfgW _ _).2.2.2 (fun _ _ => rfl) SENSOR_SIDE_LEFT_ID,
   (side_sensors_calibration_spec cfgW _ _).2.2.1 SENSOR_FRONT_LEFT_ID
      (by decide) (by decide)⟩

/-- C7: required_micrometers_to_speed returns the uint32 truncation of
(v^2 - v_target^2) / (2 a) * MICROMETERS_PER_METER, where a is the
negated deceleration magnitude when the target speed exceeds v and the
acceleration magnitude otherwise; and it returns 0 whenever v equals the
current target speed, for any positive acceleration and deceleration
magnitudes. -/
theorem required_micrometers_to_speed_spec
    (linear_acceleration linear_deceleration target_speed speed : ℚ)
    (hacc : 0 < linear_acceleration) (hdec : 0 < linear_deceleration) :
    (required_micrometers_to_speed linear_acceleration linear_deceleration
        target_speed speed =
      (ratTrunc ((speed * speed - target_speed * target_speed) /
        (2 * (if target_speed > speed then -linear_deceleration
              else linear_acceleration)) * MICROMETERS_PER_METER)).toNat) ∧
    (speed = target_speed →
      required_micrometers_to_speed linear_acceleration linear_deceleration
        target_speed speed = 0) := by
  constructor
  · unfold required_micrometers_to_speed
    have h2a : 2 * (if target_speed > speed then -linear_deceleration
        else linear_acceleration) ≠ 0 := by
      split <;> intro hc <;> nlinarith
    simp only [FV.div, if_neg h2a, FV.mul, c_float_to_uint32]
  · intro hv
    unfold required_micrometers_to_speed
    rw [hv]
    have hlt : ¬ (target_speed > target_speed) := lt_irrefl _
    have h2a : 2 * linear_acceleration ≠ 0 := by positivity
    rw [if_neg hlt]
    simp only [sub_self, FV.div, if_neg h2a, zero_div, FV.mul, zero_mul,
      c_float_to_uint32, ratTrunc]
    norm_num

/-- C7 witness: a concrete slow-down query (target speed 1, requested
speed 0, acceleration 2, deceleration 3) follows the closed formula, and
a query at the current target speed returns 0. -/
theorem required_micrometers_to_speed_spec_witness :
    (required_micrometers_to_speed 2 3 1 0 =
      (ratTrunc (((0 : ℚ) * 0 - 1 * 1) /
        (2 * (if (1 : ℚ) > 0 then -3 else 2)) * MICROMETERS_PER_METER)).toNat) ∧
    required_micrometers_to_speed 2 3 1 1 = 0 :=
  ⟨(required_micrometers_to_speed_spec 2 3 1 0 (by norm_num) (by norm_num)).1,
   (required_micrometers_to_speed_spec 2 3 1 1 (by norm_num) (by norm_num)).2 rfl⟩

/-- The uint32 elapsed-tick computation is exact below the wrap point,
for every starting clock value. -/
theorem elapsed32_exact (start e : ℕ) (he : e < 4294967296) :
    elapsed32 start (start + e) = e := by
  unfold elapsed32
  omega

/-- Closed form of the turn maneuver: the first busy-wait loop is live
while at most 88 ticks have elapsed, the second while at most 176 have,
and the maneuver has returned afterwards; the commanded angular speed is
w in the first window and 0 from the 89th tick on, independently of the
starting clock value. -/
theorem turn_run_closed (start : ℕ) (w : ℚ) (e : ℕ) (he : e < 4294967296) :
    turn_run start w e =
      if e ≤ 88 then { phase := TurnPhase.first, target_angular_speed := w }
      else if e ≤ 176 then { phase := TurnPhase.second, target_angular_speed := 0 }
      else { phase := TurnPhase.done, target_angular_speed := 0 } := by
  induction e with
  | zero => simp [turn_run, turn_begin]
  | succ n ih =>
    have hn : n < 4294967296 := by omega
    have hel : elapsed32 start (start + (n + 1)) = n + 1 :=
      elapsed32_exact start (n + 1) he
    rw [show turn_run start w (n + 1) =
        turn_poll start (start + (n + 1)) (turn_run start w n) from rfl,
      ih hn]
    by_cases h1 : n + 1 ≤ 88
    · rw [if_pos (by omega : n ≤ 88), if_pos h1]
      simp [turn_poll, hel, h1]
    · by_cases h2 : n + 1 ≤ 176
      · rw [if_neg h1, if_pos h2]
        by_cases h3 : n ≤ 88
        · rw [if_pos h3]
          simp [turn_poll, hel, h1, h2]
        · rw [if_neg h3, if_pos (by omega : n ≤ 176)]
          simp [turn_poll, hel, h2]
      · rw [if_neg h1, if_neg h2]
        by_cases h3 : n ≤ 176
        · rw [if_neg (by omega : ¬ n ≤ 88), if_pos h3]
          simp [turn_poll, hel, h1, h2]
        · rw [if_neg (by omega : ¬ n ≤ 88), if_neg h3]
          simp [turn_poll]

/-- C4: for every starting clock value, turn_left commands angular speed
-8 pi and turn_right +8 pi during exactly the elapsed ticks 1..88 of
their fixed budget, command 0 during the elapsed ticks 89..176, are
still in progress through tick 176, and have returned by tick 177. -/
theorem turn_maneuver_windows (PI : ℚ) (start : ℕ) :
    (∀ e : ℕ, 1 ≤ e → e ≤ 176 →
      ((turn_left PI start e).target_angular_speed =
          (if e ≤ 88 then -(8 * PI) else 0)) ∧
      (turn_left PI start e).phase ≠ TurnPhase.done ∧
      ((turn_right PI start e).target_angular_speed =
          (if e ≤ 88 then 8 * PI else 0)) ∧
      (turn_right PI start e).phase ≠ TurnPhase.done) ∧
    ((turn_left PI start 177).phase = TurnPhase.done ∧
      (turn_left PI start 177).target_angular_speed = 0 ∧
      (turn_right PI start 177).phase = TurnPhase.done ∧
      (turn_right PI start 177).target_angular_speed = 0) := by
  constructor
  · intro e h1 h2
    have he : e < 4294967296 := by omega
    rw [show turn_left PI start e = turn_run start (-(8 * PI)) e from rfl,
      show turn_right PI start e = turn_run start (8 * PI) e from rfl,
      turn_run_closed start _ e he, turn_run_closed start _ e he]
    by_cases h3 : e ≤ 88
    · simp [h3]
    · simp [h3, h2]
  · rw [show turn_left PI start 177 = turn_run start (-(8 * PI)) 177 from rfl,
      show turn_right PI start 177 = turn_run start (8 * PI) 177 from rfl,
      turn_run_closed start _ 177 (by omega), turn_run_closed start _ 177 (by omega)]
    refine ⟨by simp, by simp, by simp, by simp⟩

/-- C4 witness: at an arbitrary starting clock value, 50 ticks into the
turn the angular command is still the full turning speed, 100 ticks in
it is 0 with the maneuver still in progress, and at tick 177 it has
completed. -/
theorem turn_maneuver_windows_witness :
    (((turn_left (355 / 113) 123456 50).target_angular_speed =
        (if (50 : ℕ) ≤ 88 then -(8 * (355 / 113 : ℚ)) else 0)) ∧
      (turn_left (355 / 113) 123456 50).phase ≠ TurnPhase.done ∧
      ((turn_right (355 / 113) 123456 50).target_angular_speed =
        (if (50 : ℕ) ≤ 88 then 8 * (355 / 113 : ℚ) else 0)) ∧
      (turn_right (355 / 113) 123456 50).phase ≠ TurnPhase.done) ∧
    (((turn_left (355 / 113) 123456 100).target_angular_speed =
        (if (100 : ℕ) ≤ 88 then -(8 * (355 / 113 : ℚ)) else 0)) ∧
      (turn_left (355 / 113) 123456 100).phase ≠ TurnPhase.done ∧
      ((turn_right (355 / 113) 123456 100).target_angular_speed =
        (if (100 : ℕ) ≤ 88 then 8 * (355 / 113 : ℚ) else 0)) ∧
      (turn_right (355 / 113) 123456 100).phase ≠ TurnPhase.done) ∧
    ((turn_left (355 / 113) 123456 177).phase = TurnPhase.done ∧
      (turn_left (355 / 113) 123456 177).target_angular_speed = 0 ∧
      (turn_right (355 / 113) 123456 177).phase = TurnPhase.done ∧
      (turn_right (355 / 113) 123456 177).target_angular_speed = 0) :=
  ⟨(turn_maneuver_windows (355 / 113) 123456).1 50 (by omega) (by omega),
   (turn_maneuver_windows (355 / 113) 123456).1 100 (by omega) (by omega),
   (turn_maneuver_windows (355 / 113) 123456).2⟩

/-- Closed form of the sensor cycle state after n ticks: the phase
counter cycles through 1..4, the sensor index advances once per four
ticks and wraps after 3, and a pin is high exactly when its sensor is
the active one and the machine sits between the end of phase 1 (arming)
and the end of phase 3 (disarming). -/
def sm_closed (n : ℕ) : SmState :=
  { emitter_status := n % 4 + 1,
    sensor_index := n / 4 % 4,
    gpioa9 := decide (n / 4 % 4 = 0) && (decide (n % 4 = 1) || decide (n % 4 = 2)),
    gpiob8 := decide (n / 4 % 4 = 1) && (decide (n % 4 = 1) || decide (n % 4 = 2)),
    gpioa8 := decide (n / 4 % 4 = 2) && (decide (n % 4 = 1) || decide (n % 4 = 2)),
    gpiob9 := decide (n / 4 % 4 = 3) && (decide (n % 4 = 1) || decide (n % 4 = 2)) }

/-- The sensor cycle run equals its closed form at every tick count. -/
theorem sm_run_closed (n : ℕ) : sm_run n = sm_closed n := by
  induction n with
  | zero => rfl
  | succ m ih =>
    rw [show sm_run (m + 1) = sm_emitter_adc (sm_run m) from rfl, ih]
    have h4 : m % 4 = 0 ∨ m % 4 = 1 ∨ m % 4 = 2 ∨ m % 4 = 3 := by omega
    have hidx : m / 4 % 4 = 0 ∨ m / 4 % 4 = 1 ∨ m / 4 % 4 = 2 ∨ m / 4 % 4 = 3 := by
      omega
    rcases h4 with h | h | h | h <;> rcases hidx with hi | hi | hi | hi <;>
      simp [sm_emitter_adc, sm_closed, set_emitter_on, set_emitter_off,
        NUM_SENSOR, h, hi,
        (by omega : (m + 1) % 4 = (m % 4 + 1) % 4),
        (by omega : (m + 1) / 4 % 4 = (m / 4 + (m % 4 + 1) / 4) % 4)] <;>
      omega

/-- C9: in every state reachable from the reset state of the sensor
cycle, at most one emitter is armed; an armed emitter always belongs to
the active sensor and only while the machine is between its phase-1
arming and its phase-3 disarming (status 2 or 3); the phase counter is
n mod 4 + 1; and the active sensor index is n / 4 mod 4, advancing
cyclically 0, 1, 2, 3, 0 one step every four ticks. -/
theorem sm_emitter_cycle_invariant (n : ℕ) :
    ((sm_run n).emitter_status = n % 4 + 1) ∧
    ((sm_run n).sensor_index = n / 4 % 4) ∧
    (∀ i : ℕ, emitter_armed (sm_run n) i = true →
      i = n / 4 % 4 ∧ ((sm_run n).emitter_status = 2 ∨ (sm_run n).emitter_status = 3)) ∧
    (∀ i j : ℕ, emitter_armed (sm_run n) i = true →
      emitter_armed (sm_run n) j = true → i = j) := by
  have hchar : ∀ i : ℕ, emitter_armed (sm_run n) i = true →
      i = n / 4 % 4 ∧ ((sm_run n).emitter_status = 2 ∨ (sm_run n).emitter_status = 3) := by
    intro i h
    rw [sm_run_closed] at h ⊢
    have hst : (sm_closed n).emitter_status = n % 4 + 1 := rfl
    rw [hst]
    unfold emitter_armed at h
    unfold sm_closed at h
    split_ifs at h with h0 h1 h2 h3
    · simp only [Bool.and_eq_true, Bool.or_eq_true, decide_eq_true_eq] at h
      refine ⟨h0.trans h.1.symm, ?_⟩
      rcases h.2 with hp | hp <;> omega
    · simp only [Bool.and_eq_true, Bool.or_eq_true, decide_eq_true_eq] at h
      refine ⟨h1.trans h.1.symm, ?_⟩
      rcases h.2 with hp | hp <;> omega
    · simp only [Bool.and_eq_true, Bool.or_eq_true, decide_eq_true_eq] at h
      refine ⟨h2.trans h.1.symm, ?_⟩
      rcases h.2 with hp | hp <;> omega
    · simp only [Bool.and_eq_true, Bool.or_eq_true, decide_eq_true_eq] at h
      refine ⟨h3.trans h.1.symm, ?_⟩
      rcases h.2 with hp | hp <;> omega
  refine ⟨?_, ?_, hchar, ?_⟩
  · rw [sm_run_closed]; rfl
  · rw [sm_run_closed]; rfl
  · intro i j hi hj
    rw [(hchar i hi).1, (hchar j hj).1]

/-- C9 witness: five ticks after reset the machine is in phase 2 of
sensor 1, whose emitter is the armed one. -/
theorem sm_emitter_cycle_invariant_witness :
    (1 : ℕ) = 5 / 4 % 4 ∧
    ((sm_run 5).emitter_status = 2 ∨ (sm_run 5).emitter_status = 3) :=
  (sm_emitter_cycle_invariant 5).2.2.1 1 (by decide)

end Bulebule
